import Mathlib

/-!
Verification development for the catch-game repository.

The definitions below are a shallow embedding of the TypeScript sources:
numbers are modelled as rationals, per-frame mutation as functions from a
state record to a new state record, and the p5 environment as the record of
the three fields the code reads from it (canvas width, canvas height and
elapsed frame time).
-/

/-- A 2D numeric pair, the V2d type used for positions, velocities,
accelerations, sizes and modifiers throughout the sources. -/
structure V2 where
  x : ℚ
  y : ℚ
deriving DecidableEq, Repr

/-- Horizontal input-direction flags of the player, the XDirection type. -/
structure XDirection where
  left : Bool
  right : Bool
deriving DecidableEq, Repr

/-- The fields of the p5 instance that the game code reads: canvas width,
canvas height, and the elapsed time since the last frame in milliseconds. -/
structure P5 where
  width : ℚ
  height : ℚ
  deltaTime : ℚ
deriving DecidableEq, Repr

/-- Sprite from src/game/utils/sprite.ts: a size together with the derived
center point. The size setter keeps centerPoint equal to half of size. -/
structure Sprite where
  size : V2
  centerPoint : V2
deriving DecidableEq, Repr

/-- The Sprite constructor: setting the size recomputes the center point as
half of the size vector, per the size setter. -/
def Sprite.create (width height : ℚ) : Sprite :=
  { size := ⟨width, height⟩, centerPoint := ⟨width / 2, height / 2⟩ }

/-- Player from src/game/entities/player.ts: a moving entity (sprite,
position, velocity) with acceleration, the acceleration/deceleration
modifiers, per-axis maximum speed, the input-direction flags, the jump input
flag, and the two private jump-phase flags. -/
structure Player where
  sprite : Sprite
  position : V2
  velocity : V2
  acceleration : V2
  accelerationModifier : V2
  decelerationModifier : V2
  maxSpeed : V2
  inputDirection : XDirection
  isJumping : Bool
  isRising : Bool
  isFalling : Bool
deriving DecidableEq, Repr

/-- Player.calcAxisVelocity: integrate acceleration over the elapsed time,
apply the deceleration damping factor, and snap small residual velocities
(strictly between 0 and the deceleration modifier in magnitude) to zero. -/
def Player.calcAxisVelocity (p : P5) (currentAxisVelocity axisAcceleration
    axisDecelerationModifier : ℚ) : ℚ :=
  let axisVelocity := currentAxisVelocity + p.deltaTime * axisAcceleration
  let axisVelocity := axisVelocity * (1 - p.deltaTime * axisDecelerationModifier)
  if (axisVelocity > 0 ∧ axisVelocity < axisDecelerationModifier)
      ∨ (axisVelocity < 0 ∧ axisVelocity > -axisDecelerationModifier) then
    0
  else
    axisVelocity

/-- Player.calcAxisPosition: integrate velocity over the elapsed time. -/
def Player.calcAxisPosition (p : P5) (currentAxisPosition axisVelocity : ℚ) : ℚ :=
  currentAxisPosition + p.deltaTime * axisVelocity

/-- Player.updateTrajectory: reset acceleration, map the input-direction
flags to horizontal acceleration (the left check runs first, then the right
check overwrites it), step the jump state machine to choose the vertical
acceleration and the new phase flags, recompute both axis velocities, and
clamp each axis velocity to the maximum speed. The triple ayRF collects the
vertical acceleration and the isRising/isFalling flags chosen by the
if/else-if chain of the source. -/
def Player.updateTrajectory (p : P5) (pl : Player) : Player :=
  let ax : ℚ := 0
  let ax := if pl.inputDirection.left then -pl.accelerationModifier.x else ax
  let ax := if pl.inputDirection.right then pl.accelerationModifier.x else ax
  let isRising := if pl.isJumping && !pl.isFalling then true else pl.isRising
  let ayRF : ℚ × Bool × Bool :=
    if isRising then
      if pl.velocity.y > -pl.maxSpeed.y then
        (-pl.accelerationModifier.y, isRising, pl.isFalling)
      else
        (0, false, true)
    else if pl.isFalling then
      if pl.position.y < p.height - pl.sprite.centerPoint.y then
        (pl.decelerationModifier.y, isRising, pl.isFalling)
      else
        (0, isRising, false)
    else
      (0, isRising, pl.isFalling)
  let vx := Player.calcAxisVelocity p pl.velocity.x ax pl.decelerationModifier.x
  let vy := Player.calcAxisVelocity p pl.velocity.y ayRF.1 pl.decelerationModifier.y
  let vx := if vx < -pl.maxSpeed.x then -pl.maxSpeed.x
    else if vx > pl.maxSpeed.x then pl.maxSpeed.x else vx
  let vy := if vy < -pl.maxSpeed.y then -pl.maxSpeed.y
    else if vy > pl.maxSpeed.y then pl.maxSpeed.y else vy
  { pl with
    acceleration := ⟨ax, ayRF.1⟩
    velocity := ⟨vx, vy⟩
    isRising := ayRF.2.1
    isFalling := ayRF.2.2 }

/-- Player.updatePosition: integrate both position axes and clamp each to
the canvas bounds shrunk by the sprite center point. -/
def Player.updatePosition (p : P5) (pl : Player) : Player :=
  let px := Player.calcAxisPosition p pl.position.x pl.velocity.x
  let py := Player.calcAxisPosition p pl.position.y pl.velocity.y
  let px := if px < pl.sprite.centerPoint.x then pl.sprite.centerPoint.x
    else if px > p.width - pl.sprite.centerPoint.x then
      p.width - pl.sprite.centerPoint.x
    else px
  let py := if py < pl.sprite.centerPoint.y then pl.sprite.centerPoint.y
    else if py > p.height - pl.sprite.centerPoint.y then
      p.height - pl.sprite.centerPoint.y
    else py
  { pl with position := ⟨px, py⟩ }

/-- Player.update: trajectory first, then position, once per frame. -/
def Player.update (p : P5) (pl : Player) : Player :=
  Player.updatePosition p (Player.updateTrajectory p pl)

/-- The data of an Entity from src/game/utils/entity.ts that the collision
test reads: the canvas position of the sprite center and the sprite. -/
structure Entity where
  sprite : Sprite
  position : V2
deriving DecidableEq, Repr

/-- Entity.didCollide: the axis-aligned bound overlap test, the conjunction
of the four comparisons of the source in order (right edge of this against
left edge of the target and so on for both axes). -/
def Entity.didCollide (a target : Entity) : Bool :=
  decide (a.position.x + a.sprite.centerPoint.x ≥
      target.position.x - target.sprite.centerPoint.x ∧
    a.position.x - a.sprite.centerPoint.x ≤
      target.position.x + target.sprite.centerPoint.x ∧
    a.position.y + a.sprite.centerPoint.y ≥
      target.position.y - target.sprite.centerPoint.y ∧
    a.position.y - a.sprite.centerPoint.y ≤
      target.position.y + target.sprite.centerPoint.y)

/-- Collectible from src/game/entities/collectible.ts: a moving entity with
no extra fields. -/
structure Collectible where
  sprite : Sprite
  position : V2
  velocity : V2
deriving DecidableEq, Repr

/-- The Collectible constructor: position (x, y), velocity (dx, dy) and the
sprite. -/
def Collectible.create (x y dx dy : ℚ) (sprite : Sprite) : Collectible :=
  { sprite := sprite, position := ⟨x, y⟩, velocity := ⟨dx, dy⟩ }

/-- MovingEntity.calcAxisPosition, the base-class integration helper used
by Collectible.updatePosition. -/
def MovingEntity.calcAxisPosition (p : P5) (currentPosition velocity : ℚ) : ℚ :=
  currentPosition + p.deltaTime * velocity

/-- Collectible.update: delegates to updatePosition, which recomputes only
the vertical position from the vertical velocity; no clamp is applied. -/
def Collectible.update (p : P5) (c : Collectible) : Collectible :=
  { c with position :=
      ⟨c.position.x, MovingEntity.calcAxisPosition p c.position.y c.velocity.y⟩ }

/-- The per-gameplay fields of the Game scene of src/game/scenes/game.ts
that the spawn-timer logic touches: the countdown and the collectible
collection. -/
structure GameScene where
  spawnTimer : ℚ
  collectibles : List Collectible
deriving DecidableEq, Repr

/-- Default value the spawn timer is reset to, in milliseconds. -/
def spawnInterval : ℚ := 600

/-- Game.spawnCollectible: build a 100 by 100 sprite, place a new
collectible at a horizontal position drawn from the spawnable band (the
random sample r stands for the Math.random() result), just above the top
edge, with constant downward velocity 0.2, and push it onto the
collectibles array. -/
def Game.spawnCollectible (p : P5) (r : ℚ) (g : GameScene) : GameScene :=
  let collectibleSprite := Sprite.create 100 100
  let collectible := Collectible.create
    (collectibleSprite.centerPoint.x +
      r * (p.width - 2 * collectibleSprite.centerPoint.x))
    (-collectibleSprite.centerPoint.y)
    0 (2/10) collectibleSprite
  { g with collectibles := g.collectibles ++ [collectible] }

/-- Game.updateSpawnTimer: when the countdown has reached zero or below,
reset it to the spawn interval and spawn one collectible; otherwise
decrement it by the elapsed frame time. -/
def Game.updateSpawnTimer (p : P5) (r : ℚ) (g : GameScene) : GameScene :=
  if g.spawnTimer ≤ 0 then
    Game.spawnCollectible p r { g with spawnTimer := spawnInterval }
  else
    { g with spawnTimer := g.spawnTimer - p.deltaTime }

/-- The score setter of the Game scene: an assignment is ignored when the
stored score has already reached 999999, and otherwise stores the assigned
value unconditionally. -/
def Game.scoreSet (current value : ℤ) : ℤ :=
  if current ≥ 999999 then current else value

/-- One score increment as performed by the collision loop of Game.draw:
read the score through the getter, add one, and write the result back
through the setter. -/
def Game.scoreIncr (current : ℤ) : ℤ :=
  Game.scoreSet current (current + 1)

/-- Tags for the two concrete scenes registered by the Sketch constructor,
in registration order. -/
inductive SceneTag where
  | menu
  | game
deriving DecidableEq, Repr

/-- Settlement outcome of the promise returned by Sketch.activateScene. The
executor may call reject and then resolve; the first settlement wins, so
the promise is rejected whenever the range check fails. -/
inductive Outcome where
  | resolved
  | rejected (reason : String)
deriving DecidableEq, Repr

/-- The fields of the Sketch of src/game/sketch.ts that scene activation
touches. activeScene is an Option because the source stores
scenes[index], which is the undefined value when index is out of bounds. -/
structure Sketch where
  scenes : List SceneTag
  activeScene : Option SceneTag
  sceneIndex : ℤ
deriving DecidableEq, Repr

/-- JavaScript array indexing: scenes[index] is undefined for a negative
index or an index at or past the length. -/
def jsIndex (scenes : List SceneTag) (index : ℤ) : Option SceneTag :=
  if index < 0 then none else scenes.get? index.toNat

/-- Sketch.activateScene: the promise executor performs the range check and
rejects on failure, but does not return there, so it always goes on to set
sceneIndex and activeScene and to call resolve. The returned outcome is
rejected exactly when the range check failed, because the first settlement
of a promise wins and the later resolve call is a no-op. -/
def Sketch.activateScene (s : Sketch) (index : ℤ) : Sketch × Outcome :=
  let outcome :=
    if s.scenes.length = 0 ∨ index < 0 ∨ index ≥ s.scenes.length then
      Outcome.rejected "Scene index out of range"
    else
      Outcome.resolved
  ({ s with sceneIndex := index, activeScene := jsIndex s.scenes index },
    outcome)

/-- Sketch.advanceScene: activate the scene after the current index. -/
def Sketch.advanceScene (s : Sketch) : Sketch × Outcome :=
  Sketch.activateScene s (s.sceneIndex + 1)

/-- A sample p5 environment: an 800 by 600 canvas at a 16 millisecond
frame time. -/
def p5demo : P5 := ⟨800, 600, 16⟩

/-- The player exactly as configured by Game.setup on the demo canvas:
200 by 200 sprite, the configured acceleration and deceleration modifiers
and maximum speeds, placed at the bottom-left rest position. -/
def playerDemo : Player :=
  { sprite := Sprite.create 200 200
    position := ⟨100, 500⟩
    velocity := ⟨0, 0⟩
    acceleration := ⟨0, 0⟩
    accelerationModifier := ⟨1, 2/5⟩
    decelerationModifier := ⟨3/400, 1/200⟩
    maxSpeed := ⟨3/4, 2⟩
    inputDirection := ⟨false, false⟩
    isJumping := false
    isRising := false
    isFalling := false }

/-- The demo player with both horizontal input flags set at once. -/
def playerBoth : Player :=
  { playerDemo with inputDirection := ⟨true, true⟩ }

/-- The demo player with only the left input flag set. -/
def playerLeft : Player :=
  { playerDemo with inputDirection := ⟨true, false⟩ }

/-- The sketch exactly as built by the Sketch constructor: the menu and
game scenes in order, the first one active. -/
def sketchInit : Sketch :=
  { scenes := [SceneTag.menu, SceneTag.game]
    activeScene := some SceneTag.menu
    sceneIndex := 0 }

/-- The sketch after the menu has advanced to the game scene. -/
def sketchAtGame : Sketch :=
  { sketchInit with activeScene := some SceneTag.game, sceneIndex := 1 }

/-- Running increments from zero saturates: the score after n increments
is the minimum of n and the ceiling. -/
lemma scoreIncr_iterate_from_zero (n : ℕ) :
    Game.scoreIncr^[n] 0 = min (n : ℤ) 999999 := by
  induction n with
  | zero => simp
  | succ k ih =>
    rw [Function.iterate_succ_apply', ih]
    unfold Game.scoreIncr Game.scoreSet
    split_ifs <;> omega

/-- The absolute value of the clamp-to-band conditional of the source is
bounded by the band radius whenever the radius is non-negative. -/
lemma abs_clamp_le (v m : ℚ) (hm : 0 ≤ m) :
    |if v < -m then -m else if v > m then m else v| ≤ m := by
  rw [abs_le]
  split_ifs <;> constructor <;> linarith

/-- C5: didCollide holds exactly when the sprite-derived bounds overlap or
touch on both axes, that is when on each axis the distance between the two
centers is at most the sum of the two center-point offsets; consequently
didCollide is symmetric in its two entities. -/
theorem didCollide_iff_overlap_and_symm (a b : Entity) :
    (Entity.didCollide a b = true ↔
      |a.position.x - b.position.x| ≤
        a.sprite.centerPoint.x + b.sprite.centerPoint.x ∧
      |a.position.y - b.position.y| ≤
        a.sprite.centerPoint.y + b.sprite.centerPoint.y) ∧
    Entity.didCollide a b = Entity.didCollide b a := by
  constructor
  · unfold Entity.didCollide
    simp only [decide_eq_true_eq]
    constructor
    · rintro ⟨h1, h2, h3, h4⟩
      constructor
      · rw [abs_le]
        constructor <;> linarith
      · rw [abs_le]
        constructor <;> linarith
    · rintro ⟨hx, hy⟩
      rw [abs_le] at hx hy
      refine ⟨by linarith [hx.1], by linarith [hx.2], by linarith [hy.1],
        by linarith [hy.2]⟩
  · unfold Entity.didCollide
    rw [decide_eq_decide]
    constructor
    · rintro ⟨h1, h2, h3, h4⟩
      exact ⟨by linarith, by linarith, by linarith, by linarith⟩
    · rintro ⟨h1, h2, h3, h4⟩
      exact ⟨by linarith, by linarith, by linarith, by linarith⟩

/-- C8: a collectible update only moves the vertical position, by elapsed
time times vertical velocity, with no clamp; the horizontal position, the
velocity and the sprite are returned unchanged. -/
theorem collectible_update_moves_only_y (p : P5) (c : Collectible) :
    (Collectible.update p c).position.y =
      c.position.y + p.deltaTime * c.velocity.y ∧
    (Collectible.update p c).position.x = c.position.x ∧
    (Collectible.update p c).velocity = c.velocity ∧
    (Collectible.update p c).sprite = c.sprite :=
  ⟨rfl, rfl, rfl, rfl⟩

/-- C10: once the stored score has reached the ceiling, the score setter
ignores every assigned value, including zero, so the score can never be
lowered again. -/
theorem scoreSet_frozen_at_ceiling (s v : ℤ) (h : 999999 ≤ s) :
    Game.scoreSet s v = s := by
  unfold Game.scoreSet
  rw [if_pos h]

/-- Witness for C10 at the ceiling itself with the reset value zero used
by Game.setup. -/
theorem scoreSet_frozen_at_ceiling_witness :
    Game.scoreSet 999999 0 = 999999 :=
  scoreSet_frozen_at_ceiling 999999 0 (le_refl 999999)

/-- C6: the score never decreases under an increment, one million
increments from zero yield exactly 999999, and an increment at or above
the ceiling leaves the score unchanged. -/
theorem score_saturates_at_ceiling :
    (∀ s : ℤ, s ≤ Game.scoreIncr s) ∧
    Game.scoreIncr^[1000000] 0 = 999999 ∧
    (∀ s : ℤ, 999999 ≤ s → Game.scoreIncr s = s) := by
  refine ⟨?_, ?_, ?_⟩
  · intro s
    unfold Game.scoreIncr Game.scoreSet
    split_ifs <;> omega
  · rw [scoreIncr_iterate_from_zero]
    norm_num
  · intro s h
    unfold Game.scoreIncr Game.scoreSet
    rw [if_pos h]

/-- Witness for C6 at concrete scores on both sides of the ceiling. -/
theorem score_saturates_at_ceiling_witness :
    (0 : ℤ) ≤ Game.scoreIncr 0 ∧
    Game.scoreIncr^[1000000] 0 = 999999 ∧
    Game.scoreIncr 1000000 = 1000000 :=
  ⟨score_saturates_at_ceiling.1 0,
    score_saturates_at_ceiling.2.1,
    score_saturates_at_ceiling.2.2 1000000 (by norm_num)⟩

/-- C3: the per-axis velocity computation returns zero exactly when the
damped intermediate value lies strictly between zero and the deceleration
modifier in magnitude, and returns the intermediate value otherwise; with
zero velocity and zero acceleration the result is zero for any
non-negative deceleration modifier across any number of frames. -/
theorem calcAxisVelocity_snaps_small_residual (p : P5) (v a d : ℚ)
    (hd : 0 ≤ d) :
    (∀ vv : ℚ, vv = (v + p.deltaTime * a) * (1 - p.deltaTime * d) →
      Player.calcAxisVelocity p v a d =
        if (0 < vv ∧ vv < d) ∨ (-d < vv ∧ vv < 0) then 0 else vv) ∧
    ∀ n : ℕ, (fun w => Player.calcAxisVelocity p w 0 d)^[n] 0 = 0 := by
  constructor
  · intro vv hvv
    subst hvv
    simp only [Player.calcAxisVelocity]
    split_ifs <;> tauto
  · intro n
    induction n with
    | zero => rfl
    | succ k ih =>
      rw [Function.iterate_succ_apply', ih]
      unfold Player.calcAxisVelocity
      norm_num

/-- Witness for C3: the rest state is preserved on the demo environment
with deceleration modifier one half, both for a single frame and for three
iterated frames. -/
theorem calcAxisVelocity_snaps_small_residual_witness :
    Player.calcAxisVelocity p5demo 0 0 (1/2) = 0 ∧
    (fun w => Player.calcAxisVelocity p5demo w 0 (1/2))^[3] 0 = 0 := by
  have h := calcAxisVelocity_snaps_small_residual p5demo 0 0 (1/2)
    (by norm_num)
  exact ⟨by simpa using h.2 1, h.2 3⟩

/-- C4: after a single full player update, the velocity magnitude on each
axis is bounded by the configured maximum speed for that axis, whatever the
elapsed time, modifiers, input flags and starting velocity are. -/
theorem player_update_bounds_speed (p : P5) (pl : Player)
    (hx : 0 ≤ pl.maxSpeed.x) (hy : 0 ≤ pl.maxSpeed.y) :
    |(Player.update p pl).velocity.x| ≤ pl.maxSpeed.x ∧
    |(Player.update p pl).velocity.y| ≤ pl.maxSpeed.y :=
  ⟨abs_clamp_le _ _ hx, abs_clamp_le _ _ hy⟩

/-- Witness for C4 on the demo player configured by Game.setup. -/
theorem player_update_bounds_speed_witness :
    |(Player.update p5demo playerDemo).velocity.x| ≤ playerDemo.maxSpeed.x ∧
    |(Player.update p5demo playerDemo).velocity.y| ≤ playerDemo.maxSpeed.y :=
  player_update_bounds_speed p5demo playerDemo
    (by norm_num [playerDemo]) (by norm_num [playerDemo])

/-- C2 (amended): the horizontal acceleration computed by the trajectory
update is the positive modifier whenever the right flag is set (the right
check is evaluated after the left one and overwrites it, so this includes
the case where both flags are set), the negative modifier when only the
left flag is set, and zero when neither flag is set. -/
theorem updateTrajectory_input_acceleration (p : P5) (pl : Player) :
    (pl.inputDirection.right = true →
      (Player.updateTrajectory p pl).acceleration.x =
        pl.accelerationModifier.x) ∧
    (pl.inputDirection.left = true → pl.inputDirection.right = false →
      (Player.updateTrajectory p pl).acceleration.x =
        -pl.accelerationModifier.x) ∧
    (pl.inputDirection.left = false → pl.inputDirection.right = false →
      (Player.updateTrajectory p pl).acceleration.x = 0) := by
  refine ⟨?_, ?_, ?_⟩
  · intro hr
    simp [Player.updateTrajectory, hr]
  · intro hl hr
    simp [Player.updateTrajectory, hl, hr]
  · intro hl hr
    simp [Player.updateTrajectory, hl, hr]

/-- Counterexample for C2 as stated: with both input flags set and a
non-zero horizontal acceleration modifier, the computed horizontal
acceleration is the positive modifier, not zero. -/
theorem updateTrajectory_both_inputs_cex :
    (Player.updateTrajectory p5demo playerBoth).acceleration.x = 1 ∧
    (Player.updateTrajectory p5demo playerBoth).acceleration.x ≠ 0 := by
  norm_num [Player.updateTrajectory, playerBoth, playerDemo]

/-- Witness for C2 at concrete players with both flags set and with only
the left flag set. -/
theorem updateTrajectory_input_acceleration_witness :
    (Player.updateTrajectory p5demo playerBoth).acceleration.x =
      playerBoth.accelerationModifier.x ∧
    (Player.updateTrajectory p5demo playerLeft).acceleration.x =
      -playerLeft.accelerationModifier.x :=
  ⟨(updateTrajectory_input_acceleration p5demo playerBoth).1 rfl,
    (updateTrajectory_input_acceleration p5demo playerLeft).2.1 rfl rfl⟩

/-- C1: evaluation of scene activation at out-of-range indices. The
promise is rejected with the out-of-range reason, as the claim states, but
the sketch state is still mutated, against the claim: the scene index
becomes the invalid index and the active scene becomes the undefined
value, both for activateScene with index minus one on the initial sketch
and for advanceScene called with the last scene active. -/
theorem activateScene_rejects_but_mutates :
    (Sketch.activateScene sketchInit (-1)).2 =
      Outcome.rejected "Scene index out of range" ∧
    (Sketch.activateScene sketchInit (-1)).1.sceneIndex = -1 ∧
    (Sketch.activateScene sketchInit (-1)).1.activeScene = none ∧
    (Sketch.advanceScene sketchAtGame).2 =
      Outcome.rejected "Scene index out of range" ∧
    (Sketch.advanceScene sketchAtGame).1.sceneIndex = 2 ∧
    (Sketch.advanceScene sketchAtGame).1.activeScene = none := by
  refine ⟨?_, ?_, ?_, ?_, ?_, ?_⟩ <;> decide

/-- C7: when the spawn timer has reached zero or below, it is reset to 600
and exactly one collectible is appended, placed just above the top edge at
a horizontal position within the spawnable band, with constant downward
velocity; otherwise the timer is decremented by the elapsed time and the
collection is unchanged. -/
theorem updateSpawnTimer_spawns_on_zero (p : P5) (r : ℚ) (g : GameScene)
    (hdt : 0 ≤ p.deltaTime) (hr0 : 0 ≤ r) (hr1 : r < 1)
    (hw : 100 ≤ p.width) :
    (g.spawnTimer ≤ 0 →
      (Game.updateSpawnTimer p r g).spawnTimer = 600 ∧
      ∃ c : Collectible,
        (Game.updateSpawnTimer p r g).collectibles = g.collectibles ++ [c] ∧
        c.position.y = -50 ∧
        50 ≤ c.position.x ∧ c.position.x ≤ p.width - 50 ∧
        c.velocity.x = 0 ∧ c.velocity.y = 2/10) ∧
    (0 < g.spawnTimer →
      (Game.updateSpawnTimer p r g).spawnTimer = g.spawnTimer - p.deltaTime ∧
      (Game.updateSpawnTimer p r g).collectibles = g.collectibles) := by
  constructor
  · intro h
    unfold Game.updateSpawnTimer
    rw [if_pos h]
    refine ⟨rfl, _, rfl, by norm_num [Game.spawnCollectible, Sprite.create,
      Collectible.create], ?_, ?_, rfl, rfl⟩
    · have h1 : 0 ≤ r * (p.width - 100) := mul_nonneg hr0 (by linarith)
      simp only [Game.spawnCollectible, Sprite.create, Collectible.create]
      norm_num
      linarith
    · have h2 : r * (p.width - 100) ≤ 1 * (p.width - 100) :=
        mul_le_mul_of_nonneg_right (le_of_lt hr1) (by linarith)
      simp only [Game.spawnCollectible, Sprite.create, Collectible.create]
      norm_num
      linarith
  · intro h
    unfold Game.updateSpawnTimer
    rw [if_neg (by linarith)]
    exact ⟨rfl, rfl⟩

/-- Witness for C7 on the demo canvas with the timer at zero and the
random sample one half. -/
theorem updateSpawnTimer_spawns_on_zero_witness :
    (Game.updateSpawnTimer p5demo (1/2) ⟨0, []⟩).spawnTimer = 600 ∧
    ∃ c : Collectible,
      (Game.updateSpawnTimer p5demo (1/2) ⟨0, []⟩).collectibles =
        ([] : List Collectible) ++ [c] ∧
      c.position.y = -50 ∧
      50 ≤ c.position.x ∧ c.position.x ≤ p5demo.width - 50 ∧
      c.velocity.x = 0 ∧ c.velocity.y = 2/10 :=
  (updateSpawnTimer_spawns_on_zero p5demo (1/2) ⟨0, []⟩
    (by norm_num [p5demo]) (by norm_num) (by norm_num)
    (by norm_num [p5demo])).1 (le_refl 0)

/-- A one millisecond frame time on the demo canvas, used to exhibit a
parameter choice under which the jump cycle never completes. -/
def p5stuck : P5 := ⟨800, 600, 1⟩

/-- A grounded player at the rest line with positive vertical modifiers and
maximum speed satisfying every hypothesis of the jump-cycle claim, the jump
flag set, and a vertical acceleration modifier small enough that the first
integrated velocity falls inside the snap-to-zero band of
calcAxisVelocity. -/
def playerStuck : Player :=
  { sprite := Sprite.create 200 200
    position := ⟨100, 500⟩
    velocity := ⟨0, 0⟩
    acceleration := ⟨0, 0⟩
    accelerationModifier := ⟨0, 1/1000⟩
    decelerationModifier := ⟨0, 1/100⟩
    maxSpeed := ⟨0, 1⟩
    inputDirection := ⟨false, false⟩
    isJumping := true
    isRising := false
    isFalling := false }

/-- A 100 millisecond frame time on the demo canvas, under which the
configured game parameters complete a jump cycle. -/
def p5jump : P5 := ⟨800, 600, 100⟩

/-- The demo player with the jump flag set, about to start a jump from the
grounded rest state. -/
def playerGrounded : Player :=
  { playerDemo with isJumping := true }

/-- Counterexample for C9 as stated: playerStuck satisfies every hypothesis
of the claim (grounded start at the rest line, positive vertical
acceleration and deceleration modifiers, positive maximum speed, dt = 1
with dt times the deceleration modifier below one), yet after the first
jump frame the player is a fixed point of the update whether the jump flag
stays set or is cleared, while still rising; so no number of frames ever
reaches the falling phase and the cycle never completes. -/
theorem player_jump_cycle_stuck_cex :
    (Player.update p5stuck playerStuck).isRising = true ∧
    (Player.update p5stuck playerStuck).isFalling = false ∧
    Player.update p5stuck (Player.update p5stuck playerStuck) =
      Player.update p5stuck playerStuck ∧
    Player.update p5stuck
        { Player.update p5stuck playerStuck with isJumping := false } =
      { Player.update p5stuck playerStuck with isJumping := false } := by
  norm_num [Player.update, Player.updateTrajectory, Player.updatePosition,
    Player.calcAxisVelocity, Player.calcAxisPosition, playerStuck, p5stuck,
    Sprite.create]

/-- C9 (amended): with the parameters configured by Game.setup and a fixed
frame time of 100 milliseconds on a 600 pixel high canvas, the jump cycle
completes: the jump frame enters the rising phase and drives the vertical
speed to the upward cap, the next frame switches to the falling phase, and
eleven frames after the jump flag is cleared the player is grounded again,
with the vertical position exactly back at the rest line. -/
theorem player_jump_cycle_completes :
    (Player.update p5jump playerGrounded).isRising = true ∧
    (Player.update p5jump playerGrounded).isFalling = false ∧
    (Player.update p5jump playerGrounded).velocity.y =
      -playerGrounded.maxSpeed.y ∧
    (Player.update p5jump
      { Player.update p5jump playerGrounded with isJumping := false
        }).isFalling = true ∧
    ((Player.update p5jump)^[11]
      { Player.update p5jump playerGrounded with isJumping := false
        }).isRising = false ∧
    ((Player.update p5jump)^[11]
      { Player.update p5jump playerGrounded with isJumping := false
        }).isFalling = false ∧
    ((Player.update p5jump)^[11]
      { Player.update p5jump playerGrounded with isJumping := false
        }).position.y
      = p5jump.height - playerGrounded.sprite.centerPoint.y := by
  norm_num [Function.iterate_succ_apply, Player.update,
    Player.updateTrajectory, Player.updatePosition, Player.calcAxisVelocity,
    Player.calcAxisPosition, playerGrounded, playerDemo, p5jump,
    Sprite.create]
